import Mathlib

/-!
Verification development for the Superbot risk-control core.

The Python sources under `src/` are shallowly embedded here:
* `src/src/core/bad_bank.py`            → the `BadBank` ledger and its operations;
* `src/src/ai_core/tick_pressure.py`    → the microstructure analyzer;
* `src/src/ai_core/liquidity_mapper.py` → pivot clustering and walls;
* `src/src/risk_manager.py`             → the zone-recovery risk manager.

Machine floats are modelled as exact rationals (`ℚ`); Python dictionaries
keyed by strings are modelled as association lists (`List (String × _)`)
preserving insertion order; a fallible collaborator call is modelled as an
`Option`/`Except` input supplied by an environment record; `None`-able
Python values are `Option ℚ`.  The transcendental `math.log` that only
feeds the (clamped) volatility scale is modelled as an uninterpreted
function supplied by the environment.
-/

namespace Superbot

/-! ## Association-list model of Python `dict` (insertion ordered) -/

/-- Lookup of a key, first match (Python dict keys are unique, so this is
the dict lookup). -/
def mapLookup {α : Type} : List (String × α) → String → Option α
  | [], _ => none
  | (k', v) :: t, k => if k' = k then some v else mapLookup t k

/-- Assignment `d[k] = v`: replaces the value in place if the key exists
(keeping its position, as CPython dicts do), else appends. -/
def mapInsert {α : Type} : List (String × α) → String → α → List (String × α)
  | [], k, v => [(k, v)]
  | (k', v') :: t, k, v => if k' = k then (k, v) :: t else (k', v') :: mapInsert t k v

/-- Deletion `del d[k]` / `d.pop(k, None)`: removes the key. -/
def mapErase {α : Type} : List (String × α) → String → List (String × α)
  | [], _ => []
  | (k', v) :: t, k => if k' = k then mapErase t k else (k', v) :: mapErase t k

/-- Character-list prefix test (for the substring test below). -/
def isPrefixChars : List Char → List Char → Bool
  | [], _ => true
  | _ :: _, [] => false
  | c :: cs, d :: ds => c = d && isPrefixChars cs ds

/-- Character-list containment: the pattern occurs at some position. -/
def containsChars (pat : List Char) : List Char → Bool
  | [] => isPrefixChars pat []
  | c :: rest => isPrefixChars pat (c :: rest) || containsChars pat rest

/-- Python `pat in s` substring test. -/
def hasSub (s pat : String) : Bool := containsChars pat.data s.data

/-! ## Canonical position record

One canonical value type for the duck-typed position records of the
source (`ticket`, `symbol`, `type` (0 = buy, 1 = sell), `volume`,
`price_open`, `time`). -/

structure Pos where
  ticket : Nat := 0
  symbol : String := ""
  type : Nat := 0
  volume : ℚ := 0
  price_open : ℚ := 0
  time : ℚ := 0
deriving DecidableEq, Repr

instance : Inhabited Pos := ⟨{}⟩

/-! ## Bad Bank (`src/src/core/bad_bank.py`) -/

/-- One toxic asset entry, as stored in `self.toxic_assets[bucket_id]`. -/
structure AssetData where
  bucket_id : String
  positions : List Pos
  frozen_time : ℚ
  initial_volume : ℚ
  status : String
deriving DecidableEq, Repr

/-- The Bad Bank ledger state (`BadBank.__init__`). -/
structure BadBank where
  toxic_assets : List (String × AssetData) := []
  tithe_balance : ℚ := 0
  total_tithe_collected : ℚ := 0
  total_debt_repaid : ℚ := 0
deriving DecidableEq, Repr

/-- The freshly constructed ledger (`BadBank.__init__`). -/
def BadBank.init : BadBank := {}

/-- `BadBank.register_toxic_asset`: a no-op when the bucket id is already
registered; otherwise snapshots the positions and total volume with
status `FROZEN`. -/
def register_toxic_asset (b : BadBank) (bucket_id : String) (positions : List Pos)
    (now : ℚ) : BadBank :=
  if (mapLookup b.toxic_assets bucket_id).isSome then b
  else
    let total_volume := (positions.map Pos.volume).sum
    { b with toxic_assets := b.toxic_assets ++
        [(bucket_id, { bucket_id := bucket_id, positions := positions, frozen_time := now,
                       initial_volume := total_volume, status := "FROZEN" })] }

/-- `BadBank.deposit_tithe`: rejects a non-positive amount (returns 0
accepted), otherwise adds the amount to the pool and to the lifetime
collected counter; returns the accepted amount and the new ledger. -/
def deposit_tithe (b : BadBank) (amount : ℚ) (source_symbol : String) : ℚ × BadBank :=
  if amount ≤ 0 then (0, b)
  else
    (amount, { b with tithe_balance := b.tithe_balance + amount,
                      total_tithe_collected := b.total_tithe_collected + amount })

/-- Contract size used by the debt-reduction estimate:
`100 if "XAU" in loser.symbol else 100000`. -/
def contract_size (symbol : String) : ℚ := if hasSub symbol "XAU" then 100 else 100000

/-- Python `round(q, 2)` on the tracked volume (two decimal places). -/
def round2 (q : ℚ) : ℚ := (round (q * 100) : ℤ) / 100

/-- Broker collaborator as seen by `attempt_debt_reduction`: a tick fetch
per symbol and a partial-close call per (ticket, volume).  A broker
exception propagates before any ledger mutation, so for these claims it
behaves like the failing result. -/
structure Tick2 where
  bid : ℚ
  ask : ℚ
deriving DecidableEq, Repr

structure Broker where
  get_last_tick : String → Option Tick2
  close_position : Nat → ℚ → Bool

/-- A successful minimum-increment partial close executed during a
debt-reduction pass (for bookkeeping in the theorems). -/
structure Nibble where
  ticket : Nat
  volume : ℚ
  cost : ℚ
deriving DecidableEq, Repr

/-- Result of a debt-reduction pass. -/
structure ReductionResult where
  acted : Bool
  balance : ℚ
  repaid : ℚ
  assets : List (String × AssetData)
  nibbles : List Nibble
deriving Repr

/-- In-place update of the candidate position after a nibble: the first
list entry equal to the mutated object gets the new volume, or is removed
once the tracked volume falls below the minimum increment
(`loser.volume = round(...)` then `positions.remove(loser)`). -/
def nibbleUpdate : List Pos → Pos → ℚ → List Pos
  | [], _, _ => []
  | p :: ps, loser, newVol =>
    if p = loser then (if newVol < 1/100 then ps else { loser with volume := newVol } :: ps)
    else p :: nibbleUpdate ps loser newVol

/-- Estimated tithe required to absorb the loss of closing 0.01 lots of
the candidate at the live close price (`bid` for a buy, `ask` for a
sell): zero when the chunk is profitable (`estimated_loss >= 0`),
otherwise the absolute estimated loss. -/
def requiredTithe (loser : Pos) (current_tick : Tick2) : ℚ :=
  let price := if loser.type = 0 then current_tick.bid else current_tick.ask
  let diff := if loser.type = 0 then price - loser.price_open else loser.price_open - price
  let estimated_loss := diff * (1/100) * contract_size loser.symbol
  if 0 ≤ estimated_loss then 0 else |estimated_loss|

/-- One iteration of the debt-reduction loop over a single bucket:
pick the first position with volume ≥ 0.01, fetch its live price,
estimate the P&L of closing exactly 0.01 lots, and, if the pool covers
the estimated loss and the broker confirms the partial close, return
the tithe deducted, the updated position list, and the closed ticket.
Every `continue` path of the source (no candidate, no tick, close
rejected, unaffordable) is `none`. -/
def bucketNibble (broker : Broker) (balance : ℚ) (asset : AssetData) :
    Option (ℚ × List Pos × Nat) :=
  match asset.positions.find? (fun p => decide ((1 : ℚ)/100 ≤ p.volume)) with
  | none => none
  | some loser =>
    match broker.get_last_tick loser.symbol with
    | none => none
    | some current_tick =>
      if requiredTithe loser current_tick ≤ balance then
        if broker.close_position loser.ticket (1/100) then
          some (requiredTithe loser current_tick,
                nibbleUpdate asset.positions loser (round2 (loser.volume - 1/100)),
                loser.ticket)
        else none
      else none

/-- Loop of `BadBank.attempt_debt_reduction` over
`list(self.toxic_assets.items())`, threading the pool balance and the
lifetime-repaid counter; `done` is the already-visited prefix of the
dict.  On the first confirmed close the pass returns immediately, the
remaining buckets unexamined. -/
def attempt_debt_reduction_aux (broker : Broker) :
    List (String × AssetData) → ℚ → ℚ → List (String × AssetData) → ReductionResult
  | [], balance, repaid, done =>
    { acted := false, balance := balance, repaid := repaid, assets := done, nibbles := [] }
  | (bucket_id, asset) :: rest, balance, repaid, done =>
    match bucketNibble broker balance asset with
    | none => attempt_debt_reduction_aux broker rest balance repaid (done ++ [(bucket_id, asset)])
    | some (required_tithe, positions2, closed_ticket) =>
      let assets2 :=
        if positions2 = [] then done ++ rest
        else done ++ [(bucket_id, { asset with positions := positions2 })] ++ rest
      { acted := true, balance := balance - required_tithe,
        repaid := repaid + required_tithe, assets := assets2,
        nibbles := [{ ticket := closed_ticket, volume := 1/100, cost := required_tithe }] }

/-- `BadBank.attempt_debt_reduction`: returns the pass outcome, the new
ledger, and the list of confirmed nibbles it executed. -/
def attempt_debt_reduction (broker : Broker) (b : BadBank) : Bool × BadBank × List Nibble :=
  if b.toxic_assets = [] then (false, b, [])
  else
    let r := attempt_debt_reduction_aux broker b.toxic_assets b.tithe_balance b.total_debt_repaid []
    (r.acted,
     { b with tithe_balance := r.balance, total_debt_repaid := r.repaid, toxic_assets := r.assets },
     r.nibbles)

/-- Operations driving the ledger from outside, for sequence invariants. -/
inductive LedgerOp where
  | deposit (amount : ℚ) (source_symbol : String)
  | register (bucket_id : String) (positions : List Pos) (now : ℚ)
  | reduce (broker : Broker)

def applyOp (b : BadBank) : LedgerOp → BadBank
  | .deposit a s => (deposit_tithe b a s).2
  | .register id ps now => register_toxic_asset b id ps now
  | .reduce br => (attempt_debt_reduction br b).2.1

def runOps (b : BadBank) : List LedgerOp → BadBank
  | [] => b
  | op :: ops => runOps (applyOp b op) ops

/-! ## Tick Pressure Analyzer (`src/src/ai_core/tick_pressure.py`)

Only the Python fallback path is embedded (the optional Rust engine is
fed but its result is never read by the embedded functions). -/

/-- Analyzer state: the tick window and the two bounded (capacity 100)
classified-volume buffers, plus the previous mid-price used by the
quote-update classifier. -/
structure TickPressureAnalyzer where
  window_seconds : ℚ := 5
  ticks : List (ℚ × ℚ) := []
  buy_volume_buffer : List ℚ := []
  sell_volume_buffer : List ℚ := []
  prev_mid : Option ℚ := none
deriving DecidableEq, Repr

/-- Append to a `deque(maxlen=100)`: the oldest entry is evicted past
capacity. -/
def pushBuf (buf : List ℚ) (x : ℚ) : List ℚ :=
  let b := buf ++ [x]
  if 100 < b.length then b.tail else b

/-- Input tick for `analyze_order_flow` (`last` and `volume` may be
absent from the dict; `volume` defaults to 1). -/
structure OFTick where
  bid : ℚ
  ask : ℚ
  last : Option ℚ := none
  volume : Option ℚ := none
deriving DecidableEq, Repr

/-- Result dict of `analyze_order_flow`; the fallback/neutral shape has
no volume keys. -/
structure OFResult where
  order_flow_imbalance : ℚ
  buy_pressure : ℚ
  sell_pressure : ℚ
  buy_volume : Option ℚ := none
  sell_volume : Option ℚ := none
deriving DecidableEq, Repr

/-- The neutral result returned for a missing tick and by the
exception-fallback branch of the source. -/
def order_flow_neutral : OFResult :=
  { order_flow_imbalance := 0, buy_pressure := 1/2, sell_pressure := 1/2 }

/-- Classified-volume buffer update of `analyze_order_flow`: a trade
(non-tiny `last`) is classified against bid/ask, a quote update against
the previous mid-price; ties split the volume evenly over both buffers. -/
def classifyBuffers (a : TickPressureAnalyzer) (t : OFTick) : List ℚ × List ℚ :=
  let last_price := t.last.getD t.bid
  let volume := t.volume.getD 1
  let mid_price := (t.bid + t.ask) / 2
  let prev_mid := a.prev_mid.getD mid_price
  let is_quote_update := |last_price| < 1/1000000000
  if ¬ is_quote_update then
    if t.ask ≤ last_price then (pushBuf a.buy_volume_buffer volume, a.sell_volume_buffer)
    else if last_price ≤ t.bid then (a.buy_volume_buffer, pushBuf a.sell_volume_buffer volume)
    else (pushBuf a.buy_volume_buffer (volume/2), pushBuf a.sell_volume_buffer (volume/2))
  else
    if prev_mid < mid_price then (pushBuf a.buy_volume_buffer volume, a.sell_volume_buffer)
    else if mid_price < prev_mid then (a.buy_volume_buffer, pushBuf a.sell_volume_buffer volume)
    else (pushBuf a.buy_volume_buffer (volume/2), pushBuf a.sell_volume_buffer (volume/2))

/-- `TickPressureAnalyzer.analyze_order_flow`: classify the tick into
the volume buffers and report the buffer totals as
imbalance/pressures (neutral 0.5/0.5/0.0 when the total volume is not
positive). -/
def analyze_order_flow (a : TickPressureAnalyzer) (tick : Option OFTick) :
    OFResult × TickPressureAnalyzer :=
  match tick with
  | none => (order_flow_neutral, a)
  | some t =>
    let buffers := classifyBuffers a t
    let a' := { a with buy_volume_buffer := buffers.1, sell_volume_buffer := buffers.2,
                       prev_mid := some ((t.bid + t.ask) / 2) }
    let buy_vol := buffers.1.sum
    let sell_vol := buffers.2.sum
    let total_vol := buy_vol + sell_vol
    if 0 < total_vol then
      ({ order_flow_imbalance := (buy_vol - sell_vol) / total_vol,
         buy_pressure := buy_vol / total_vol,
         sell_pressure := sell_vol / total_vol,
         buy_volume := some buy_vol, sell_volume := some sell_vol }, a')
    else
      ({ order_flow_imbalance := 0, buy_pressure := 1/2, sell_pressure := 1/2,
         buy_volume := some buy_vol, sell_volume := some sell_vol }, a')

/-- `TickPressureAnalyzer.calculate_vpin`: the Python fallback VPIN,
`|V_buy - V_sell| / total`, suppressed to 0 on non-positive total volume
or fewer than 15 combined classified samples. -/
def calculate_vpin (a : TickPressureAnalyzer) : ℚ :=
  let buy_vol := a.buy_volume_buffer.sum
  let sell_vol := a.sell_volume_buffer.sum
  let total_vol := buy_vol + sell_vol
  if total_vol ≤ 0 then 0
  else if a.buy_volume_buffer.length + a.sell_volume_buffer.length < 15 then 0
  else |buy_vol - sell_vol| / total_vol

/-- Empty analyzer (fresh `TickPressureAnalyzer()`), used by witnesses. -/
def tpaEmpty : TickPressureAnalyzer := {}

/-- A concrete trade tick used by the C10 witness. -/
def ofTickW : OFTick := { bid := 10, ask := 11, last := some 12, volume := some 2 }

/-! ## Liquidity Mapper (`src/src/ai_core/liquidity_mapper.py`) -/

/-- A clustered support/resistance wall. -/
structure Wall where
  price : ℚ
  strength : Nat
  type : String
deriving DecidableEq, Repr

/-- Ascending insertion sort, modelling Python `levels.sort()`. -/
def insertAsc (x : ℚ) : List ℚ → List ℚ
  | [] => [x]
  | y :: ys => if x < y then x :: y :: ys else y :: insertAsc x ys

def sortAsc : List ℚ → List ℚ
  | [] => []
  | x :: xs => insertAsc x (sortAsc xs)

/-- `LiquidityMapper._process_cluster`: a closed cluster becomes a wall
whose price is the mean of its levels and whose strength is the level
count. -/
def _process_cluster (levels : List ℚ) (is_resistance : Bool) : Wall :=
  { price := levels.sum / (levels.length : ℚ),
    strength := levels.length,
    type := if is_resistance then "RESISTANCE" else "SUPPORT" }

/-- Loop of `LiquidityMapper._cluster_levels`: `threshold` is the value
computed once before the loop, `prev` the previous sorted level,
`current` the cluster being built. -/
def clusterLoop (is_resistance : Bool) (threshold : ℚ) :
    List ℚ → ℚ → List ℚ → List Wall
  | [], _, current => [_process_cluster current is_resistance]
  | l :: ls, prev, current =>
    if l - prev ≤ threshold then clusterLoop is_resistance threshold ls l (current ++ [l])
    else _process_cluster current is_resistance :: clusterLoop is_resistance threshold ls l [l]

/-- `LiquidityMapper._cluster_levels`: sorts the pivot levels ascending
and greedily merges consecutive levels; the threshold is
`levels[0] * 0.0005`, computed once from the first (smallest) sorted
level before the loop and never recomputed. -/
def _cluster_levels (levels : List ℚ) (is_resistance : Bool) : List Wall :=
  match sortAsc levels with
  | [] => []
  | l0 :: ls => clusterLoop is_resistance (l0 * (5/10000)) ls l0 [l0]

/-- Modelled from the spec: the clustering rule exactly as claim C5 and
§4.2 word it, with `cluster_threshold = current_cluster_anchor_price *
0.0005` recomputed from the anchor (first level) of the cluster
currently being built whenever a new cluster starts.  Used only as the
comparison point for the C5 counterexample. -/
def clusterLoopSpec (is_resistance : Bool) :
    List ℚ → ℚ → ℚ → List ℚ → List Wall
  | [], _, _, current => [_process_cluster current is_resistance]
  | l :: ls, anchor, prev, current =>
    if l - prev ≤ anchor * (5/10000) then
      clusterLoopSpec is_resistance ls anchor l (current ++ [l])
    else
      _process_cluster current is_resistance :: clusterLoopSpec is_resistance ls l l [l]

def cluster_levels_spec (levels : List ℚ) (is_resistance : Bool) : List Wall :=
  match sortAsc levels with
  | [] => []
  | l0 :: ls => clusterLoopSpec is_resistance ls l0 l0 [l0]

/-- Gap-splitting reformulation used to characterize the code's
clustering: given the fixed threshold `t` and the previous level,
return the levels joining the previous level's cluster and the list of
subsequent clusters. -/
def gapSplitRel (t : ℚ) : ℚ → List ℚ → List ℚ × List (List ℚ)
  | _, [] => ([], [])
  | prev, x :: xs =>
    let r := gapSplitRel t x xs
    if x - prev ≤ t then (x :: r.1, r.2)
    else ([], (x :: r.1) :: r.2)

/-- Maximal runs of the (sorted) level list in which every consecutive
gap is at most `t`. -/
def gapClusters (t : ℚ) : List ℚ → List (List ℚ)
  | [] => []
  | x :: xs =>
    let r := gapSplitRel t x xs
    (x :: r.1) :: r.2

/-! ## Zone-Recovery Risk Manager (`src/src/risk_manager.py`) -/

/-- `ZoneConfig` dataclass (defaults as in the source). -/
structure ZoneConfig where
  zone_pips : ℚ
  tp_pips : ℚ
  max_hedges : Nat := 10
  min_age_seconds : ℚ := 3
  hedge_cooldown_seconds : ℚ := 15
  bucket_close_cooldown_seconds : ℚ := 15
  emergency_hedge_threshold : Nat := 10
deriving DecidableEq, Repr

/-- `HedgeState` dataclass (defaults as in the source; the
`threading.Lock` field is a concurrency artifact and is not part of the
value state). -/
structure HedgeState where
  last_hedge_time : ℚ := 0
  active_hedges : Nat := 0
  total_positions : Nat := 0
  zone_width_points : ℚ := 0
  tp_width_points : ℚ := 0
  high_vol_mode : Bool := false
  volatility_scale : ℚ := 1
  last_volatility_scale_update : ℚ := 0
deriving DecidableEq, Repr

/-- The default `HedgeState()` built by lazy creation and carrying the
dataclass defaults. -/
def HedgeState.default : HedgeState := {}

/-- Mutable state of a `RiskManager` instance: the per-symbol state and
pending-marker dicts, the spread history (with its one-per-second
recording timestamp) and the tick-freshness offset estimate.
`self._global_position_cap = 10` and
`self.max_spread_multiplier = 2.5` are set in `__init__` and never
reassigned, so they are modelled as the constants below. -/
structure RiskManager where
  config : ZoneConfig
  hedge_states : List (String × HedgeState) := []
  pending_hedges : List (String × ℚ) := []
  spread_history : List ℚ := []
  last_spread_update : ℚ := 0
  time_offset : Option ℚ := none
  last_offset_calc : ℚ := 0
deriving DecidableEq, Repr

def global_position_cap : Nat := 10

def max_spread_multiplier : ℚ := 5/2

/-- `RiskManager.is_spread_healthy`: the first-ever sample is accepted
and seeds the history; otherwise the rolling average of the recorded
history is computed first, the sample is recorded at most once per
second (history capped at the last 50 samples by popping the front),
and the call vetoes iff the current spread strictly exceeds
`2.5 ×` that average. -/
def is_spread_healthy (rm : RiskManager) (now current_spread : ℚ) : Bool × RiskManager :=
  if rm.spread_history = [] then
    (true, { rm with spread_history := [current_spread] })
  else
    let avg_spread := rm.spread_history.sum / (rm.spread_history.length : ℚ)
    let rm' :=
      if 1 < now - rm.last_spread_update then
        let h := rm.spread_history ++ [current_spread]
        { rm with spread_history := if 50 < h.length then h.tail else h,
                  last_spread_update := now }
      else rm
    if avg_spread * max_spread_multiplier < current_spread then (false, rm')
    else (true, rm')

/-- `RiskManager._get_hedge_state`: lazy creation of the per-symbol
entry on first reference. -/
def _get_hedge_state (rm : RiskManager) (symbol : String) : HedgeState × RiskManager :=
  match mapLookup rm.hedge_states symbol with
  | some st => (st, rm)
  | none =>
    (HedgeState.default,
     { rm with hedge_states := rm.hedge_states ++ [(symbol, HedgeState.default)] })

/-- `RiskManager.reset_symbol_state`: deletes the symbol's entry from
the per-symbol dict when present (`del self._hedge_states[symbol]`). -/
def reset_symbol_state (rm : RiskManager) (symbol : String) : RiskManager :=
  if (mapLookup rm.hedge_states symbol).isSome then
    { rm with hedge_states := mapErase rm.hedge_states symbol }
  else rm

/-! ### Admission gate and zone parameters -/

/-- Modelled from the spec: the numeric members of the `AdaptiveRisk`
constants class live in `src/constants.py`, which is not part of the
source snapshot; the spec (§4.3, gate check 6) only describes the band
structure (low/high/extreme volatility ratio selecting min/mid/max/base
cooldown).  They are therefore carried as abstract parameters. -/

structure AdaptiveRiskConsts where
  VOL_LOW : ℚ
  VOL_HIGH : ℚ
  VOL_EXTREME : ℚ
  COOLDOWN_MIN : ℚ
  COOLDOWN_BASE : ℚ
  COOLDOWN_MAX : ℚ
  ZONE_MAX : ℚ

/-- `RiskManager._calculate_adaptive_factors`: (cooldown, zone
multiplier) from the ATR against the fixed 2.0 baseline. -/
def _calculate_adaptive_factors (c : AdaptiveRiskConsts) (atr_val : ℚ) : ℚ × ℚ :=
  if atr_val ≤ 0 then (c.COOLDOWN_BASE, 1)
  else
    let vol_ratio := atr_val / 2
    let cooldown :=
      if vol_ratio < c.VOL_LOW then c.COOLDOWN_MIN
      else if c.VOL_EXTREME < vol_ratio then c.COOLDOWN_MAX
      else if c.VOL_HIGH < vol_ratio then 15
      else c.COOLDOWN_BASE
    let zone_mult := if 1 < vol_ratio then max 1 vol_ratio else 1
    (cooldown, zone_mult)

/-- Python float truthiness of an optional float (`None` and `0.0` are
falsy). -/
def pyFloatTruthy (o : Option ℚ) : Bool := !(o.getD 0 = 0)

/-- The metal test `"XAU" in symbol or "GOLD" in symbol`. -/
def isMetal (symbol : String) : Bool := hasSub symbol "XAU" || hasSub symbol "GOLD"

/-- Market tick dict as consumed by the risk manager (`spread` and
`time` default to 0 when absent; `tick_age_s` may be absent, in which
case the freshness fallback treats the age as infinite). -/
structure VTick where
  bid : ℚ
  ask : ℚ
  spread : ℚ := 0
  time : ℚ := 0
  tick_age_s : Option ℚ := none
deriving DecidableEq, Repr

/-- Stable ascending insertion by open time, modelling
`sorted(positions, key=lambda p: p['time'])`. -/
def insertByTime (p : Pos) : List Pos → List Pos
  | [] => [p]
  | q :: qs => if p.time < q.time then p :: q :: qs else q :: insertByTime p qs

def sortByTime : List Pos → List Pos
  | [] => []
  | p :: ps => insertByTime p (sortByTime ps)

/-- The spread check prelude of the gate: `is_spread_healthy` is called
(and records the sample) only when the tick carries a positive spread;
a non-positive spread passes without touching the history. -/
def spreadGate (rm : RiskManager) (now current_spread : ℚ) : Bool × RiskManager :=
  if 0 < current_spread then is_spread_healthy rm now current_spread
  else (true, rm)

/-- `RiskManager.validate_hedge_conditions`: the six-check admission
gate, evaluated in source order with first-failure short-circuit.
`now` models `time.time()`, `get_positions` the broker's global position
fetch (`None` on failure), `server_time` the value of
`broker.get_tick(symbol).get('time', time.time())`.  Returns the
verdict with its reason (static prefix of the formatted source message)
and the updated manager (spread history recording, lazy state
creation). -/
def validateVerdict (c : AdaptiveRiskConsts) (config : ZoneConfig) (state : HedgeState)
    (healthy : Bool) (now : ℚ) (get_positions : Option (List Pos)) (server_time : ℚ)
    (symbol : String) (positions : List Pos) (tick : VTick)
    (atr_val : Option ℚ) (max_hedges_override : Option Nat) : Bool × String :=
  if healthy = false then (false, "Spread unhealthy")
  else
    let limit := max_hedges_override.getD config.max_hedges
    if limit ≤ positions.length then (false, "Max hedges reached")
    else
      match get_positions with
      | none => (false, "Failed to fetch global positions")
      | some all_positions =>
        if global_position_cap ≤ all_positions.length then
          (false, "Global position cap reached")
        else
          let last_pos := (sortByTime positions).getLastD default
          let age_since_last := server_time - last_pos.time
          if age_since_last < config.min_age_seconds then (false, "Position too young")
          else
            let last_price := last_pos.price_open
            let current_price := if last_pos.type = 0 then tick.bid else tick.ask
            let dist := |current_price - last_price|
            let atr_price :=
              if pyFloatTruthy atr_val ∧ 0 < atr_val.getD 0 then atr_val.getD 0 else 2
            let dynamic_min_dist := atr_price * (1/4)
            let min_floor : ℚ := if isMetal symbol then 2 else 1/500
            let final_min_dist := max min_floor dynamic_min_dist
            if dist < final_min_dist then (false, "Distance too small")
            else
              let dynamic_cooldown :=
                (_calculate_adaptive_factors c
                  (if pyFloatTruthy atr_val then atr_val.getD 0 else 0)).1
              if now - state.last_hedge_time < dynamic_cooldown then
                (false, "Hedge cooldown active")
              else (true, "Conditions met for hedging")

def validate_hedge_conditions (c : AdaptiveRiskConsts) (rm0 : RiskManager) (now : ℚ)
    (get_positions : Option (List Pos)) (server_time : ℚ)
    (symbol : String) (positions : List Pos) (tick : VTick)
    (atr_val : Option ℚ) (max_hedges_override : Option Nat) :
    (Bool × String) × RiskManager :=
  if positions = [] then ((false, "No positions to hedge"), rm0)
  else
    let gs := _get_hedge_state rm0 symbol
    let sh := spreadGate gs.2 now tick.spread
    (validateVerdict c sh.2.config gs.1 sh.1 now get_positions server_time symbol
      positions tick atr_val max_hedges_override, sh.2)

/-- `RiskManager.calculate_zone_parameters`: zone width by group size
(20/30/50 pips), the volatility multiplier applied when above 1.1
(capped at `ZONE_MAX`), the ATR widening/slippage pads, converted to
price points.  When `atr_val` is `None` the source raises a `TypeError`
at `atr_pips = atr_val * pip_multiplier` (caught by the caller's
outermost handler), modelled as the `error` outcome. -/
def calculate_zone_parameters (c : AdaptiveRiskConsts) (positions : List Pos)
    (point : ℚ) (atr_val : Option ℚ) : Except Unit (ℚ × ℚ) :=
  let symbol := (positions.headD default).symbol
  let pip_multiplier : ℚ :=
    if hasSub symbol "XAU" || hasSub symbol "GOLD" || hasSub symbol "JPY" then 100 else 10000
  let num_positions := positions.length
  let zone_pips0 : ℚ := if num_positions = 2 then 30 else if 3 ≤ num_positions then 50 else 20
  let zone_mult :=
    (_calculate_adaptive_factors c (if pyFloatTruthy atr_val then atr_val.getD 0 else 0)).2
  let effective_zone := min (zone_pips0 * zone_mult) c.ZONE_MAX
  let zone_pips1 := if 11/10 < zone_mult then effective_zone else zone_pips0
  match atr_val with
  | none => .error ()
  | some a =>
    let atr_pips := a * pip_multiplier
    let zone_pips2 := if 50 < atr_pips then max zone_pips1 (atr_pips * (4/5)) else zone_pips1
    let slippage_pad_pips := if 20 < atr_pips then atr_pips * (1/10) else 0
    let tp_pips := zone_pips2 + slippage_pad_pips
    .ok (zone_pips2 * point, tp_pips * point)

/-! ### Zone-recovery execution state and environment -/

/-- The per-bucket trade metadata
(`position_manager.active_learning_trades[first_ticket]`): the stored
hedge plan (trigger prices keyed by `hedge<n>_trigger_price`), the
entry ATR and the persisted hedge-level counter. -/
structure TradeMeta where
  hedge_plan : List (String × ℚ) := []
  entry_atr : Option ℚ := none
  current_hedge_level : Int := 0
deriving DecidableEq, Repr

/-- A `record_hedge` call issued to the hedge coordinator on a
confirmed order. -/
structure HedgeRecord where
  bucket_id : String
  action : String
  lot : ℚ
  price : ℚ
deriving DecidableEq, Repr

/-- All mutable state visible to `execute_zone_recovery`: the manager
itself, the bucket's trade metadata (`none` when the ticket has no
entry, in which case the source works on a fresh `{}`), and the event
logs of the success-path collaborator calls. -/
structure ZRState where
  rm : RiskManager
  meta : Option TradeMeta := none
  recorded_hedges : List HedgeRecord := []
  bucket_adds : List (String × Nat) := []
deriving DecidableEq, Repr

/-- Hedge-sizing collaborator verdict. -/
structure HedgeDecision where
  should_hedge : Bool
  hedge_size : ℚ
deriving DecidableEq, Repr

/-- The slice of the microstructure snapshot read by the execution path
(`pressure_metrics['chemistry']['vpin']` and
`pressure_metrics['physics']['reynolds_number']`, defaulting to 0). -/
structure PressureMetrics where
  vpin : ℚ := 0
  reynolds_number : ℚ := 0
deriving DecidableEq, Repr

/-- Environment of one `execute_zone_recovery` call: the clock, the
environment toggles, and the replies of every external collaborator
reached on the path.  `trade_allowed`/`order_outcome` use `Except` so a
raising call is distinguishable from a failing one; an order reply
`ok (some t)` is a confirmed success iff the ticket `t` is non-zero
(Python truthiness of `result.get('ticket')`).  `logScale` abstracts
the transcendental `1.0 + math.log(max(ratio, 2.0)/2.0) * 0.5` (its
value is clamped to `[1, 1.25]` exactly as in the source). -/
structure ZREnv where
  consts : AdaptiveRiskConsts
  now : ℚ
  enable_freshness : Bool
  max_tick_age : ℚ
  trade_allowed : Except Unit Bool
  can_hedge_bucket : Bool
  get_positions : Option (List Pos)
  server_time : ℚ
  account : Option (ℚ × ℚ)
  hedge_decision : HedgeDecision
  order_outcome : Except Unit (Option Nat)
  logScale : ℚ → ℚ

/-- Clearing of the pending marker
(`self._pending_hedges.pop(symbol, None)`). -/
def popPending (st : ZRState) (symbol : String) : ZRState :=
  { st with rm := { st.rm with pending_hedges := mapErase st.rm.pending_hedges symbol } }

/-- Whether the environment's order reply is a confirmed success
(`result and result.get('ticket')`). -/
def orderSuccess (env : ZREnv) : Bool :=
  match env.order_outcome with
  | .ok (some t) => !(t = 0)
  | _ => false

/-- The volatility-regime smoothing block executed under the symbol
lock: enter high-volatility mode at ratio ≥ 2.5 with the clamped
log-scale, revert to 1.0 at ratio ≤ 2.0, otherwise leave the state
untouched. -/
def smoothState (env : ZREnv) (vratio : ℚ) (state0 : HedgeState) : HedgeState :=
  if 5/2 ≤ vratio then
    { state0 with high_vol_mode := true,
                  volatility_scale := max 1 (min (env.logScale vratio) (5/4)) }
  else if vratio ≤ 2 then
    { state0 with high_vol_mode := false, volatility_scale := 1 }
  else state0

/-- Zone-boundary trigger decision: fires SELL at the lower boundary
(within epsilon) or BUY at the upper one, subject to the anchor-side /
group-parity rules of the source; `none` when no trigger fires. -/
def zoneTrigger (first_pos : Pos) (positions : List Pos) (tick : VTick)
    (lower_level upper_level epsilon : ℚ) : Option (String × ℚ) :=
  if tick.bid ≤ lower_level + epsilon then
    (if first_pos.type = 0 ∨ (first_pos.type = 1 ∧ positions.length % 2 = 0) then
       some ("SELL", tick.bid)
     else none)
  else if upper_level - epsilon ≤ tick.ask then
    (if first_pos.type = 1 ∨ (first_pos.type = 0 ∧ positions.length % 2 = 0) then
       some ("BUY", tick.ask)
     else none)
  else none

/-- Zone boundaries oriented by the anchor's side, with the stored-plan
trigger-price override (by hedge-level parity) when a plan exists.
Returns `(lower_level, upper_level)`. -/
def zoneBoundaries (first_pos : Pos) (zone_width_points : ℚ) (hedge_level : Int)
    (use_stored_plan : Bool) (stored_trigger_price : ℚ) : ℚ × ℚ :=
  let base : ℚ × ℚ :=
    if first_pos.type = 0 then
      (first_pos.price_open - zone_width_points, first_pos.price_open)
    else
      (first_pos.price_open, first_pos.price_open + zone_width_points)
  if use_stored_plan ∧ 0 < stored_trigger_price then
    if first_pos.type = 0 then
      (if hedge_level % 2 ≠ 0 then (stored_trigger_price, base.2)
       else (base.1, stored_trigger_price))
    else
      (if hedge_level % 2 ≠ 0 then (base.1, stored_trigger_price)
       else (stored_trigger_price, base.2))
  else base

/-- Outcome of the pure decision tail of the try-block: give up (return
`False`), treat the zone as already satisfied (return `True` with no
order), or submit an order with the given action, price and lot. -/
inductive CoreOutcome where
  | reject
  | satisfied
  | submit (next_action : String) (target_price : ℚ) (hedge_lot : ℚ)
deriving DecidableEq, Repr

/-- The pure decision chain of the try-block after volatility
smoothing: scale application, boundary and trigger evaluation, the
elastic-defense and no-doubling-down vetoes, and external sizing
(`hedge_lot = decision.hedge_size - existing same-side volume`, with
lots below the 0.01 minimum treated as already satisfied). -/
def zr_core_decide (env : ZREnv) (positions : List Pos) (tick : VTick)
    (point : ℚ) (rsi_value : Option ℚ) (first_pos last_pos : Pos) (hedge_level : Int)
    (use_stored_plan : Bool) (stored_trigger_price : ℚ) (scale_factor : ℚ)
    (zone_width_points0 : ℚ) : CoreOutcome :=
  let zone_width_points :=
    if 1 < scale_factor then zone_width_points0 * scale_factor else zone_width_points0
  let lu := zoneBoundaries first_pos zone_width_points hedge_level use_stored_plan
    stored_trigger_price
  let epsilon := point * (1/10)
  match zoneTrigger first_pos positions tick lu.1 lu.2 epsilon with
  | none => .reject
  | some na =>
    let next_action := na.1
    let target_price := na.2
    let new_hedge_type : Nat := if next_action = "BUY" then 0 else 1
    let elastic_wait :=
      (new_hedge_type = 0 ∧ rsi_value ≠ none ∧ rsi_value.getD 0 < 30) ∨
      (new_hedge_type = 1 ∧ rsi_value ≠ none ∧ 70 < rsi_value.getD 0)
    if elastic_wait then .reject
    else if (next_action = "BUY" ∧ last_pos.type = 0) ∨
            (next_action = "SELL" ∧ last_pos.type = 1) then .reject
    else
      -- drawdown for the sizing collaborator; a missing/raising account
      -- fetch (and the zero-balance division, which raises and is
      -- swallowed by the inner handler) leaves it at 0
      let drawdown_pct : ℚ :=
        match env.account with
        | none => 0
        | some be => max 0 ((be.1 - be.2) / be.1)
      let _ := drawdown_pct
      if !env.hedge_decision.should_hedge then .reject
      else
        let current_friendly_volume :=
          ((positions.filter (fun p =>
            decide (p.type = (if next_action = "BUY" then 0 else 1)))).map Pos.volume).sum
        let hedge_lot := env.hedge_decision.hedge_size - current_friendly_volume
        if hedge_lot < 1/100 then .satisfied
        else .submit next_action target_price hedge_lot

/-- Tail of the try-block of `execute_zone_recovery` after the VPIN
veto, receiving the (possibly Reynolds-widened) zone width: volatility
smoothing under the lock, the decision chain, and order execution.
Every early return pops the pending marker; the confirmed-success
return does not, and it is the only exit that advances the bucket's
hedge-level counter and the symbol's hedge counters. -/
def zr_core (env : ZREnv) (symbol : String) (positions : List Pos) (tick : VTick)
    (point : ℚ) (vratio : ℚ) (rsi_value : Option ℚ) (bucket_id : String)
    (first_pos last_pos : Pos) (hedge_level : Int) (use_stored_plan : Bool)
    (stored_trigger_price : ℚ) (state0 : HedgeState) (st0 : ZRState)
    (zone_width_points0 : ℚ) : Bool × ZRState :=
  let state1 := smoothState env vratio state0
  let st := { st0 with
    rm := { st0.rm with hedge_states := mapInsert st0.rm.hedge_states symbol state1 } }
  match zr_core_decide env positions tick point rsi_value first_pos last_pos hedge_level
      use_stored_plan stored_trigger_price state1.volatility_scale zone_width_points0 with
  | .reject => (false, popPending st symbol)
  | .satisfied => (true, popPending st symbol)
  | .submit next_action target_price hedge_lot =>
    match env.order_outcome with
    | .error _ => (false, popPending st symbol)
    | .ok none => (false, popPending st symbol)
    | .ok (some ticket) =>
      if ticket = 0 then (false, popPending st symbol)
      else
        let trade_metadata := st.meta.getD {}
        let state2 := { state1 with last_hedge_time := env.now,
                                    active_hedges := state1.active_hedges + 1 }
        (true,
         { st with
           meta := some { trade_metadata with current_hedge_level := hedge_level + 1 },
           rm := { st.rm with
             hedge_states := mapInsert st.rm.hedge_states symbol state2 },
           recorded_hedges := st.recorded_hedges ++
             [{ bucket_id := bucket_id, action := next_action, lot := hedge_lot,
                price := target_price }],
           bucket_adds := st.bucket_adds ++ [(bucket_id, ticket)] })

/-- The try-block of `execute_zone_recovery` (every exception inside it
is caught by the outermost handler, which pops the pending marker and
returns `False`): metadata and ATR resolution, hedge level and stored
plan lookup, zone-parameter calculation (whose `TypeError` on a `None`
ATR is one such caught exception) and the VPIN veto / Reynolds widening,
then `zr_core`. -/
def zr_try (env : ZREnv) (symbol : String) (positions : List Pos) (tick : VTick)
    (point : ℚ) (atr_val : Option ℚ) (vratio : ℚ) (rsi_value : Option ℚ)
    (pressure_metrics : Option PressureMetrics) (bucket_id : String)
    (first_pos : Pos) (state0 : HedgeState) (st : ZRState) : Bool × ZRState :=
  let last_pos := (sortByTime positions).getLastD default
  let trade_metadata := st.meta.getD {}
  let entry_atr := trade_metadata.entry_atr
  if ¬ (atr_val ≠ none ∧ 0 < atr_val.getD 0) ∧
     ¬ (entry_atr ≠ none ∧ 0 < entry_atr.getD 0) then
    (false, popPending st symbol)
  else
    let saved_hedge_level := trade_metadata.current_hedge_level
    let hedge_level : Int :=
      if saved_hedge_level ≠ 0 then saved_hedge_level
      else max 0 ((positions.length : Int) - 1)
    let plan_key := "hedge" ++ toString hedge_level ++ "_trigger_price"
    let stored :=
      if trade_metadata.hedge_plan ≠ [] then mapLookup trade_metadata.hedge_plan plan_key
      else none
    match calculate_zone_parameters env.consts positions point atr_val with
    | .error _ => (false, popPending st symbol)
    | .ok zw =>
      match pressure_metrics with
      | some pm =>
        if 3/5 < pm.vpin then (false, popPending st symbol)
        else
          zr_core env symbol positions tick point vratio rsi_value bucket_id first_pos
            last_pos hedge_level stored.isSome (stored.getD 0) state0 st
            (if 2000 < pm.reynolds_number then zw.1 * (5/4) else zw.1)
      | none =>
        zr_core env symbol positions tick point vratio rsi_value bucket_id first_pos
          last_pos hedge_level stored.isSome (stored.getD 0) state0 st zw.1

/-- The freshness gate of `execute_zone_recovery` (enabled via
`AETHER_ENABLE_FRESHNESS_GATE`): refresh the cached clock-offset
estimate when stale, compute the tick age (infinite when the tick
carries no usable timestamp nor `tick_age_s`), and flag the evaluation
as stale when a positive `AETHER_FRESH_TICK_MAX_AGE_S` bound is
exceeded.  Returns the (offset-state-updated) state and the staleness
flag. -/
def freshnessStep (env : ZREnv) (tick : VTick) (st : ZRState) : ZRState × Bool :=
  if env.enable_freshness then
    let tick_ts := tick.time
    let should_recalc :=
      st.rm.time_offset = none ∨ 3600 < env.now - st.rm.last_offset_calc
    let rm1 :=
      if should_recalc ∧ 0 < tick_ts then
        let raw_diff := env.now - tick_ts
        { st.rm with time_offset := some (if 600 < |raw_diff| then raw_diff else 0),
                     last_offset_calc := env.now }
      else st.rm
    let offset := rm1.time_offset.getD 0
    let tick_age : Option ℚ :=
      if 0 < tick_ts then some |env.now - (tick_ts + offset)| else tick.tick_age_s
    let age_bad : Bool :=
      match tick_age with
      | none => true
      | some a => decide (env.max_tick_age < a)
    ({ st with rm := rm1 }, decide (0 < env.max_tick_age) && age_bad)
  else (st, false)

/-- `RiskManager.execute_zone_recovery`.  `normalize_positions` (whose
source, `src/utils/data_normalization.py`, is not in the snapshot) is
modelled as the identity on the already-canonical `Pos` records, per the
spec's canonical-position-type description.  All `time.time()` readings
of the call are modelled as the single instant `env.now`.  The call
returns `error` (carrying the state at the raise) for the uncaught
`IndexError` of `sorted(positions, ...)[0]` on an empty group — the one
raise site ahead of the try-block — with the pending marker left set. -/
def execute_zone_recovery (env : ZREnv) (symbol : String) (positions : List Pos)
    (tick : VTick) (point : ℚ) (strict_entry : Bool) (atr_val : Option ℚ)
    (vratio : ℚ) (rsi_value : Option ℚ) (pressure_metrics : Option PressureMetrics)
    (max_hedges_override : Option Nat) (st0 : ZRState) :
    Except ZRState (Bool × ZRState) :=
  let last_pending := (mapLookup st0.rm.pending_hedges symbol).getD 0
  if env.now - last_pending < 10 then .ok (false, st0)
  else
    let st := { st0 with
      rm := { st0.rm with
        pending_hedges := mapInsert st0.rm.pending_hedges symbol env.now } }
    if strict_entry ∧ (rsi_value = none ∨ atr_val = none ∨ atr_val.getD 0 ≤ 0) then
      .ok (false, popPending st symbol)
    else
      let fr := freshnessStep env tick st
      let st := fr.1
      if fr.2 then .ok (false, popPending st symbol)
      else
        match env.trade_allowed with
        | .error _ => .ok (false, popPending st symbol)
        | .ok allowed =>
          if !allowed then .ok (false, popPending st symbol)
          else
            match sortByTime positions with
            | [] => .error st
            | first_pos :: _ =>
              let bucket_id := symbol ++ "_" ++ toString first_pos.ticket
              if !env.can_hedge_bucket then .ok (false, popPending st symbol)
              else
                let v := validate_hedge_conditions env.consts st.rm env.now
                  env.get_positions env.server_time symbol positions tick atr_val
                  max_hedges_override
                let st := { st with rm := v.2 }
                if !(v.1).1 then .ok (false, popPending st symbol)
                else
                  let gs := _get_hedge_state st.rm symbol
                  let st := { st with rm := gs.2 }
                  .ok (zr_try env symbol positions tick point atr_val vratio rsi_value
                    pressure_metrics bucket_id first_pos gs.1 st)

/-- The boolean outcome of a call (an uncaught raise yields `False` to
no caller; it is read as `false` here only for convenience). -/
def zrResult (e : Except ZRState (Bool × ZRState)) : Bool :=
  match e with
  | .ok br => br.1
  | .error _ => false

/-- The state after the call, whether it returned or raised. -/
def zrState (e : Except ZRState (Bool × ZRState)) : ZRState :=
  match e with
  | .ok br => br.2
  | .error s => s

/-- Whether the call returned (did not raise). -/
def zrOk (e : Except ZRState (Bool × ZRState)) : Bool :=
  match e with
  | .ok _ => true
  | .error _ => false

/-- The bucket's persisted hedge-level counter as seen through a
state. -/
def hedgeLevelOf (st : ZRState) : Int := (st.meta.getD {}).current_hedge_level

/-- The symbol's active-hedge counter (through lazy-default lookup). -/
def activeHedgesOf (st : ZRState) (symbol : String) : Nat :=
  ((mapLookup st.rm.hedge_states symbol).getD HedgeState.default).active_hedges

/-- The symbol's last-hedge timestamp (through lazy-default lookup). -/
def lastHedgeTimeOf (st : ZRState) (symbol : String) : ℚ :=
  ((mapLookup st.rm.hedge_states symbol).getD HedgeState.default).last_hedge_time

/-- The symbol's pending marker. -/
def pendingOf (st : ZRState) (symbol : String) : Option ℚ :=
  mapLookup st.rm.pending_hedges symbol

/-- The manager-level view of the symbol's hedge state through the
lazy-default lookup. -/
def rmActive (rm : RiskManager) (symbol : String) : Nat :=
  ((mapLookup rm.hedge_states symbol).getD HedgeState.default).active_hedges

def rmLast (rm : RiskManager) (symbol : String) : ℚ :=
  ((mapLookup rm.hedge_states symbol).getD HedgeState.default).last_hedge_time

/-! ### Concrete inputs for the zone-recovery claims -/

/-- Concrete `AdaptiveRisk` constants for witnesses (the claims hold for
all values; these instantiate the abstract parameters). -/
def constsW : AdaptiveRiskConsts :=
  { VOL_LOW := 3/4, VOL_HIGH := 3/2, VOL_EXTREME := 3,
    COOLDOWN_MIN := 5, COOLDOWN_BASE := 30, COOLDOWN_MAX := 60, ZONE_MAX := 100 }

/-- Environment whose broker forbids trading and whose order reply is
a failure — a non-success environment for the C1/C3 witnesses. -/
def envF : ZREnv :=
  { consts := constsW, now := 100, enable_freshness := false, max_tick_age := 10,
    trade_allowed := .ok false, can_hedge_bucket := true, get_positions := some [],
    server_time := 100, account := none,
    hedge_decision := { should_hedge := true, hedge_size := 1/10 },
    order_outcome := .ok none, logScale := fun _ => 1 }

/-- Environment leading to a confirmed order (ticket 42) for the C3
counterexample. -/
def envC3 : ZREnv :=
  { consts := constsW, now := 100, enable_freshness := false, max_tick_age := 10,
    trade_allowed := .ok true, can_hedge_bucket := true, get_positions := some [],
    server_time := 100, account := none,
    hedge_decision := { should_hedge := true, hedge_size := 1/10 },
    order_outcome := .ok (some 42), logScale := fun _ => 1 }

def posC3 : Pos :=
  { ticket := 1, symbol := "EURUSD", type := 0, volume := 1/10,
    price_open := 11/10, time := 0 }

def tickC3 : VTick := { bid := 1097/1000, ask := 1098/1000, spread := 0, time := 0 }

def tickW : VTick := { bid := 1, ask := 1 }

def stW : ZRState := { rm := { config := { zone_pips := 20, tp_pips := 20 } } }

def stC3 : ZRState := { rm := { config := { zone_pips := 20, tp_pips := 20 } } }

/-- A broker whose every partial close fails. -/
def brokerFail : Broker :=
  { get_last_tick := fun _ => some { bid := 1, ask := 2 },
    close_position := fun _ _ => false }

def bankW : BadBank :=
  { toxic_assets :=
      [("EURUSD_1",
        { bucket_id := "EURUSD_1",
          positions := [{ ticket := 1, symbol := "EURUSD", type := 0, volume := 1/2,
                          price_open := 11/10, time := 0 }],
          frozen_time := 0, initial_volume := 1/2, status := "FROZEN" })],
    tithe_balance := 7, total_tithe_collected := 9, total_debt_repaid := 2 }


/-! ## Theorems -/

theorem mapLookup_mapInsert_self {α : Type} (m : List (String × α)) (k : String) (v : α) :
    mapLookup (mapInsert m k v) k = some v := by
  induction m with
  | nil => simp [mapInsert, mapLookup]
  | cons p t ih =>
    obtain ⟨k', v'⟩ := p
    by_cases h : k' = k <;> simp [mapInsert, mapLookup, h, ih]

theorem mapLookup_mapErase_self {α : Type} (m : List (String × α)) (k : String) :
    mapLookup (mapErase m k) k = none := by
  induction m with
  | nil => simp [mapErase, mapLookup]
  | cons p t ih =>
    obtain ⟨k', v'⟩ := p
    by_cases h : k' = k <;> simp [mapErase, mapLookup, h, ih]

theorem mapLookup_append_of_none {α : Type} (m m' : List (String × α)) (k : String)
    (h : mapLookup m k = none) : mapLookup (m ++ m') k = mapLookup m' k := by
  induction m with
  | nil => simp
  | cons p t ih =>
    obtain ⟨k', v'⟩ := p
    by_cases hk : k' = k
    · simp [mapLookup, hk] at h
    · simp [mapLookup, hk] at h ⊢
      exact ih h

theorem requiredTithe_nonneg (loser : Pos) (current_tick : Tick2) :
    0 ≤ requiredTithe loser current_tick := by
  unfold requiredTithe
  split_ifs <;> positivity

/-! ### Ledger lemmas -/

theorem bucketNibble_bounds (broker : Broker) (balance : ℚ) (asset : AssetData)
    {rt : ℚ} {ps : List Pos} {tk : Nat}
    (h : bucketNibble broker balance asset = some (rt, ps, tk)) :
    0 ≤ rt ∧ rt ≤ balance := by
  unfold bucketNibble at h
  split at h
  · exact absurd h (by simp)
  · split at h
    · exact absurd h (by simp)
    · split_ifs at h with h1 h2
      simp only [Option.some.injEq, Prod.mk.injEq] at h
      obtain ⟨hrt, -⟩ := h
      subst hrt
      exact ⟨requiredTithe_nonneg _ _, h1⟩

theorem bucketNibble_none_of_all_fail (broker : Broker)
    (hfail : ∀ t v, broker.close_position t v = false)
    (balance : ℚ) (asset : AssetData) :
    bucketNibble broker balance asset = none := by
  unfold bucketNibble
  split
  · rfl
  · split
    · rfl
    · split_ifs with h1 h2
      · simp [hfail] at h2
      · rfl
      · rfl

theorem aux_balance_nonneg (broker : Broker) (pending : List (String × AssetData)) :
    ∀ balance repaid done, 0 ≤ balance →
      0 ≤ (attempt_debt_reduction_aux broker pending balance repaid done).balance := by
  induction pending with
  | nil => intro balance repaid done hb; simpa [attempt_debt_reduction_aux] using hb
  | cons hd rest ih =>
    intro balance repaid done hb
    obtain ⟨bucket_id, asset⟩ := hd
    simp only [attempt_debt_reduction_aux]
    split
    · exact ih balance repaid _ hb
    · next rt ps tk heq =>
      obtain ⟨h0, h1⟩ := bucketNibble_bounds broker balance asset heq
      simp only
      linarith

theorem aux_state_eq_of_all_fail (broker : Broker)
    (hfail : ∀ t v, broker.close_position t v = false)
    (pending : List (String × AssetData)) :
    ∀ balance repaid done,
      (attempt_debt_reduction_aux broker pending balance repaid done).balance = balance ∧
      (attempt_debt_reduction_aux broker pending balance repaid done).repaid = repaid := by
  induction pending with
  | nil => intro balance repaid done; simp [attempt_debt_reduction_aux]
  | cons hd rest ih =>
    intro balance repaid done
    obtain ⟨bucket_id, asset⟩ := hd
    simp only [attempt_debt_reduction_aux]
    rw [bucketNibble_none_of_all_fail broker hfail]
    exact ih balance repaid _

theorem aux_nibbles_spec (broker : Broker) (pending : List (String × AssetData)) :
    ∀ balance repaid done,
      (attempt_debt_reduction_aux broker pending balance repaid done).nibbles.length ≤ 1 ∧
      (((attempt_debt_reduction_aux broker pending balance repaid done).nibbles.map
          Nibble.volume).sum ≤ 1/100) ∧
      ((attempt_debt_reduction_aux broker pending balance repaid done).acted = true ↔
        (attempt_debt_reduction_aux broker pending balance repaid done).nibbles ≠ []) := by
  induction pending with
  | nil => intro balance repaid done; simp [attempt_debt_reduction_aux]
  | cons hd rest ih =>
    intro balance repaid done
    obtain ⟨bucket_id, asset⟩ := hd
    simp only [attempt_debt_reduction_aux]
    split
    · exact ih balance repaid _
    · simp

theorem applyOp_balance_nonneg (b : BadBank) (op : LedgerOp)
    (hb : 0 ≤ b.tithe_balance) : 0 ≤ (applyOp b op).tithe_balance := by
  cases op with
  | deposit a s =>
    simp only [applyOp, deposit_tithe]
    split_ifs with h
    · exact hb
    · simp only
      linarith [not_le.mp h]
  | register id ps now =>
    simp only [applyOp, register_toxic_asset]
    split_ifs <;> simpa using hb
  | reduce br =>
    simp only [applyOp, attempt_debt_reduction]
    split_ifs with h
    · exact hb
    · simpa using aux_balance_nonneg br b.toxic_assets b.tithe_balance b.total_debt_repaid [] hb

theorem runOps_balance_nonneg :
    ∀ (ops : List LedgerOp) (b : BadBank), 0 ≤ b.tithe_balance →
      0 ≤ (runOps b ops).tithe_balance := by
  intro ops
  induction ops with
  | nil => intro b hb; simpa [runOps] using hb
  | cons op ops ih =>
    intro b hb
    exact ih _ (applyOp_balance_nonneg b op hb)

theorem reduce_ledger_unchanged_of_all_fail (broker : Broker)
    (hfail : ∀ t v, broker.close_position t v = false) (b : BadBank) :
    (attempt_debt_reduction broker b).2.1.tithe_balance = b.tithe_balance ∧
    (attempt_debt_reduction broker b).2.1.total_debt_repaid = b.total_debt_repaid := by
  simp only [attempt_debt_reduction]
  split_ifs with h
  · exact ⟨rfl, rfl⟩
  · simpa using aux_state_eq_of_all_fail broker hfail b.toxic_assets b.tithe_balance
      b.total_debt_repaid []

theorem register_lookup_isSome (b : BadBank) (id : String) (ps : List Pos) (t : ℚ) :
    (mapLookup (register_toxic_asset b id ps t).toxic_assets id).isSome := by
  simp only [register_toxic_asset]
  split_ifs with h
  · exact h
  · have hnone : mapLookup b.toxic_assets id = none := by
      cases hcase : mapLookup b.toxic_assets id with
      | none => rfl
      | some v => simp [hcase] at h
    simp [mapLookup_append_of_none _ _ _ hnone, mapLookup]

/-! ### Ledger claim theorems -/

/-- C2: the Ledger's cash pool balance is non-negative at all times.
The first conjunct pins down `deposit_tithe`: the accepted amount is
`max amount 0` (non-positive deposits are rejected and leave the balance
unchanged; positive deposits are added in full).  The second conjunct is
the invariant: starting from the freshly constructed ledger (pool = 0),
any sequence of deposits, registrations and debt-reduction passes leaves
the pool balance ≥ 0. -/
theorem claim_C2_tithe_balance_nonneg :
    (∀ (b : BadBank) (amount : ℚ) (s : String),
       (deposit_tithe b amount s).1 = max amount 0 ∧
       (deposit_tithe b amount s).2.tithe_balance = b.tithe_balance + max amount 0) ∧
    (∀ ops : List LedgerOp, 0 ≤ (runOps BadBank.init ops).tithe_balance) := by
  constructor
  · intro b amount s
    simp only [deposit_tithe]
    split_ifs with h
    · rw [max_eq_right h]
      exact ⟨rfl, by simp⟩
    · rw [max_eq_left (le_of_lt (not_le.mp h))]
      exact ⟨rfl, rfl⟩
  · intro ops
    exact runOps_balance_nonneg ops BadBank.init (le_refl 0)

/-- C8: toxic-asset registration is idempotent per bucket id — a second
registration of the same bucket id (with any position list and
timestamp) is a no-op on the whole Ledger state. -/
theorem claim_C8_register_idempotent :
    ∀ (b : BadBank) (id : String) (ps1 : List Pos) (t1 : ℚ) (ps2 : List Pos) (t2 : ℚ),
      register_toxic_asset (register_toxic_asset b id ps1 t1) id ps2 t2 =
        register_toxic_asset b id ps1 t1 := by
  intro b id ps1 t1 ps2 t2
  conv_lhs => rw [register_toxic_asset]
  rw [if_pos (register_lookup_isSome b id ps1 t1)]

/-- C9: a single debt-reduction pass performs at most one confirmed
partial close in total across all toxic buckets (so at most 0.01 lots
are closed and at most one deduction is made per invocation), and the
pass reports `true` exactly when such a close happened. -/
theorem claim_C9_single_nibble_per_pass :
    ∀ (broker : Broker) (b : BadBank),
      (attempt_debt_reduction broker b).2.2.length ≤ 1 ∧
      (((attempt_debt_reduction broker b).2.2.map Nibble.volume).sum ≤ 1/100) ∧
      ((attempt_debt_reduction broker b).1 = true ↔
        (attempt_debt_reduction broker b).2.2 ≠ []) := by
  intro broker b
  simp only [attempt_debt_reduction]
  split_ifs with h
  · simp
  · simpa using aux_nibbles_spec broker b.toxic_assets b.tithe_balance b.total_debt_repaid []

/-! ### Tick-pressure lemmas and claim theorems -/

theorem pushBuf_mem {buf : List ℚ} {x y : ℚ} (h : y ∈ pushBuf buf x) :
    y ∈ buf ∨ y = x := by
  simp only [pushBuf] at h
  split_ifs at h with hlen
  · have : y ∈ buf ++ [x] := (List.tail_sublist (buf ++ [x])).mem h
    simpa using this
  · simpa using h

theorem pushBuf_forall_nonneg {buf : List ℚ} {x : ℚ}
    (hbuf : ∀ y ∈ buf, 0 ≤ y) (hx : 0 ≤ x) : ∀ y ∈ pushBuf buf x, 0 ≤ y := by
  intro y hy
  rcases pushBuf_mem hy with h | h
  · exact hbuf y h
  · exact h ▸ hx

theorem classifyBuffers_nonneg (a : TickPressureAnalyzer) (t : OFTick)
    (hbuy : ∀ y ∈ a.buy_volume_buffer, 0 ≤ y)
    (hsell : ∀ y ∈ a.sell_volume_buffer, 0 ≤ y)
    (hv : 0 ≤ t.volume.getD 1) :
    (∀ y ∈ (classifyBuffers a t).1, 0 ≤ y) ∧ (∀ y ∈ (classifyBuffers a t).2, 0 ≤ y) := by
  have hv2 : 0 ≤ t.volume.getD 1 / 2 := by positivity
  simp only [classifyBuffers]
  split_ifs <;>
    exact ⟨by first | exact pushBuf_forall_nonneg hbuy hv
                    | exact pushBuf_forall_nonneg hbuy hv2
                    | exact hbuy,
           by first | exact pushBuf_forall_nonneg hsell hv
                    | exact pushBuf_forall_nonneg hsell hv2
                    | exact hsell⟩

/-- C7: the VPIN estimate is exactly 0 whenever fewer than 15 combined
classified samples exist or the total classified volume is not positive,
regardless of the imbalance magnitude; with at least 15 samples and
positive total volume it equals `|buyVol - sellVol| / totalVol`. -/
theorem claim_C7_vpin_floor :
    ∀ a : TickPressureAnalyzer,
      calculate_vpin a =
        if a.buy_volume_buffer.length + a.sell_volume_buffer.length < 15 ∨
            a.buy_volume_buffer.sum + a.sell_volume_buffer.sum ≤ 0 then 0
        else |a.buy_volume_buffer.sum - a.sell_volume_buffer.sum| /
          (a.buy_volume_buffer.sum + a.sell_volume_buffer.sum) := by
  intro a
  simp only [calculate_vpin]
  split_ifs with h1 h2 h3 h4 h5 <;> first | rfl | tauto

/-- C10: for every tick input the order-flow analysis satisfies
`buy_pressure + sell_pressure = 1` and
`order_flow_imbalance = buy_pressure - sell_pressure` on every path
(including the neutral default when total classified volume is not
positive), and, whenever the buffered and incoming volumes are
non-negative, `order_flow_imbalance ∈ [-1, 1]`. -/
theorem claim_C10_order_flow_bounds :
    ∀ (a : TickPressureAnalyzer) (tick : Option OFTick),
      (analyze_order_flow a tick).1.buy_pressure +
          (analyze_order_flow a tick).1.sell_pressure = 1 ∧
      (analyze_order_flow a tick).1.order_flow_imbalance =
          (analyze_order_flow a tick).1.buy_pressure -
            (analyze_order_flow a tick).1.sell_pressure ∧
      ((∀ y ∈ a.buy_volume_buffer, 0 ≤ y) → (∀ y ∈ a.sell_volume_buffer, 0 ≤ y) →
        (∀ t, tick = some t → 0 ≤ t.volume.getD 1) →
        |(analyze_order_flow a tick).1.order_flow_imbalance| ≤ 1) := by
  intro a tick
  match tick with
  | none =>
    refine ⟨by norm_num [analyze_order_flow, order_flow_neutral], ?_, ?_⟩
    · norm_num [analyze_order_flow, order_flow_neutral]
    · intro _ _ _
      norm_num [analyze_order_flow, order_flow_neutral]
  | some t =>
    simp only [analyze_order_flow]
    split_ifs with hpos
    · have hne : (classifyBuffers a t).1.sum + (classifyBuffers a t).2.sum ≠ 0 :=
        ne_of_gt hpos
      refine ⟨?_, ?_, ?_⟩
      · simp only
        field_simp
      · simp only
        rw [div_sub_div_same]
      · intro hbuy hsell hvpos
        have hv : 0 ≤ t.volume.getD 1 := hvpos t rfl
        obtain ⟨hB', hS'⟩ := classifyBuffers_nonneg a t hbuy hsell hv
        have hB : 0 ≤ (classifyBuffers a t).1.sum := List.sum_nonneg hB'
        have hS : 0 ≤ (classifyBuffers a t).2.sum := List.sum_nonneg hS'
        simp only
        rw [abs_div, abs_of_pos hpos, div_le_one hpos, abs_le]
        constructor <;> linarith
    · refine ⟨by norm_num, by norm_num, fun _ _ _ => by norm_num⟩

/-- Witness for C10 at a concrete trade tick: one buy-classified trade of
volume 2 into empty buffers. -/
theorem claim_C10_witness :
    (analyze_order_flow tpaEmpty (some ofTickW)).1.buy_pressure +
      (analyze_order_flow tpaEmpty (some ofTickW)).1.sell_pressure = 1 ∧
    |(analyze_order_flow tpaEmpty (some ofTickW)).1.order_flow_imbalance| ≤ 1 := by
  refine ⟨(claim_C10_order_flow_bounds tpaEmpty (some ofTickW)).1, ?_⟩
  refine (claim_C10_order_flow_bounds tpaEmpty (some ofTickW)).2.2 ?_ ?_ ?_
  · intro y hy
    simp [tpaEmpty] at hy
  · intro y hy
    simp [tpaEmpty] at hy
  · intro t ht
    cases ht
    norm_num [ofTickW]

theorem clusterLoop_eq_gapSplitRel (is_resistance : Bool) (t : ℚ) :
    ∀ (ls : List ℚ) (prev : ℚ) (current : List ℚ),
      clusterLoop is_resistance t ls prev current =
        _process_cluster (current ++ (gapSplitRel t prev ls).1) is_resistance ::
          (gapSplitRel t prev ls).2.map (fun c => _process_cluster c is_resistance) := by
  intro ls
  induction ls with
  | nil => intro prev current; simp [clusterLoop, gapSplitRel]
  | cons l ls ih =>
    intro prev current
    simp only [clusterLoop, gapSplitRel]
    split_ifs with h
    · rw [ih l (current ++ [l])]
      simp
    · rw [ih l [l]]
      simp

/-- C5 counterexample: on the sorted levels
`[100, 100.04, 200, 200.06]` the code's single fixed threshold is
`100 * 0.0005 = 0.05`, so `200.06` does NOT merge with `200`
(`0.06 > 0.05`) and three walls result, while under the claim's
per-cluster-anchor threshold (`200 * 0.0005 = 0.1`) they would merge
into two walls. -/
theorem claim_C5_counterexample :
    (_cluster_levels [100, 2501/25, 200, 10003/50] true).map Wall.strength = [2, 1, 1] ∧
    (cluster_levels_spec [100, 2501/25, 200, 10003/50] true).map Wall.strength = [2, 2] ∧
    _cluster_levels [100, 2501/25, 200, 10003/50] true ≠
      cluster_levels_spec [100, 2501/25, 200, 10003/50] true := by
  have h1 : (_cluster_levels [100, 2501/25, 200, 10003/50] true).map Wall.strength =
      [2, 1, 1] := by
    norm_num [_cluster_levels, sortAsc, insertAsc, clusterLoop, _process_cluster]
  have h2 : (cluster_levels_spec [100, 2501/25, 200, 10003/50] true).map Wall.strength =
      [2, 2] := by
    norm_num [cluster_levels_spec, sortAsc, insertAsc, clusterLoopSpec, _process_cluster]
  refine ⟨h1, h2, ?_⟩
  intro heq
  rw [heq, h2] at h1
  simp at h1

/-! ### Claim C6 (spread-health veto) and claim C4 (reset semantics) -/

/-- C6: the spread-health check vetoes iff the history is non-empty and
the current spread strictly exceeds 2.5 times the rolling average of
the recorded history; a first-ever spread (empty history) never vetoes
and seeds the history; and the history stays capped at the last 50
samples. -/
theorem claim_C6_spread_veto_iff :
    ∀ (rm : RiskManager) (now s : ℚ),
      ((is_spread_healthy rm now s).1 = false ↔
        rm.spread_history ≠ [] ∧
          (rm.spread_history.sum / (rm.spread_history.length : ℚ)) *
            max_spread_multiplier < s) ∧
      ((is_spread_healthy { rm with spread_history := [] } now s).1 = true ∧
        (is_spread_healthy { rm with spread_history := [] } now s).2.spread_history = [s]) ∧
      (is_spread_healthy rm now s).2.spread_history.length ≤
        max rm.spread_history.length 50 := by
  intro rm now s
  refine ⟨?_, ?_, ?_⟩
  · simp only [is_spread_healthy]
    split_ifs with h1 h2 h3 <;> simp_all
  · simp [is_spread_healthy]
  · simp only [is_spread_healthy]
    split_ifs with h1 h2 h3 h4 h5 <;> simp_all <;> omega

/-- C4 counterexample: a Ledger-registered symbol entry with live state
does NOT survive `reset_symbol_state` — the claim says the entry
continues to exist after a reset, but the code deletes it from the
dict. -/
theorem claim_C4_counterexample :
    mapLookup (reset_symbol_state
      { config := { zone_pips := 20, tp_pips := 20 },
        hedge_states := [("EURUSD", { last_hedge_time := 5, active_hedges := 3,
                                      volatility_scale := 6/5, high_vol_mode := true })] }
      "EURUSD").hedge_states "EURUSD" = none := by
  simp [reset_symbol_state, mapLookup, mapErase]

/-- C4 (amended): a symbol's `HedgeState` entry is created lazily on
first reference, but `reset_symbol_state` destroys the entry (deletes
the key) rather than clearing it in place; the next reference recreates
the entry with the default values (zero last-hedge time, zero active
hedges, volatility scale 1.0, high-volatility mode off). -/
theorem claim_C4_amended_reset_deletes_then_lazy_default :
    ∀ (rm : RiskManager) (symbol : String),
      mapLookup (reset_symbol_state rm symbol).hedge_states symbol = none ∧
      (_get_hedge_state (reset_symbol_state rm symbol) symbol).1 = HedgeState.default ∧
      mapLookup ((_get_hedge_state (reset_symbol_state rm symbol) symbol).2).hedge_states
        symbol = some HedgeState.default := by
  intro rm symbol
  have hnone : mapLookup (reset_symbol_state rm symbol).hedge_states symbol = none := by
    simp only [reset_symbol_state]
    split_ifs with h
    · exact mapLookup_mapErase_self rm.hedge_states symbol
    · cases hcase : mapLookup rm.hedge_states symbol with
      | none => rfl
      | some v => simp [hcase] at h
  refine ⟨hnone, ?_, ?_⟩
  · simp [_get_hedge_state, hnone]
  · simp [_get_hedge_state, hnone, mapLookup_append_of_none _ _ _ hnone, mapLookup]

/-! ### Preservation lemmas along the zone-recovery path -/

theorem rmActive_eq_of_hs {rm1 rm2 : RiskManager}
    (h : rm1.hedge_states = rm2.hedge_states) (s : String) :
    rmActive rm1 s = rmActive rm2 s := by
  unfold rmActive
  rw [h]

theorem rmLast_eq_of_hs {rm1 rm2 : RiskManager}
    (h : rm1.hedge_states = rm2.hedge_states) (s : String) :
    rmLast rm1 s = rmLast rm2 s := by
  unfold rmLast
  rw [h]

theorem smoothState_active (env : ZREnv) (v : ℚ) (s0 : HedgeState) :
    (smoothState env v s0).active_hedges = s0.active_hedges := by
  unfold smoothState
  split_ifs <;> rfl

theorem smoothState_last (env : ZREnv) (v : ℚ) (s0 : HedgeState) :
    (smoothState env v s0).last_hedge_time = s0.last_hedge_time := by
  unfold smoothState
  split_ifs <;> rfl

theorem gs_fst (rm : RiskManager) (s : String) :
    (_get_hedge_state rm s).1 = (mapLookup rm.hedge_states s).getD HedgeState.default := by
  unfold _get_hedge_state
  cases h : mapLookup rm.hedge_states s <;> simp [h]

theorem gs_snd_lookup (rm : RiskManager) (s : String) :
    mapLookup ((_get_hedge_state rm s).2).hedge_states s =
      some ((mapLookup rm.hedge_states s).getD HedgeState.default) := by
  unfold _get_hedge_state
  cases h : mapLookup rm.hedge_states s with
  | none => simp [h, mapLookup_append_of_none _ _ _ h, mapLookup]
  | some v => simp [h]

theorem gs_snd_active (rm : RiskManager) (s : String) :
    rmActive (_get_hedge_state rm s).2 s = rmActive rm s := by
  unfold rmActive
  rw [gs_snd_lookup]
  cases h : mapLookup rm.hedge_states s <;> simp [h]

theorem gs_snd_last (rm : RiskManager) (s : String) :
    rmLast (_get_hedge_state rm s).2 s = rmLast rm s := by
  unfold rmLast
  rw [gs_snd_lookup]
  cases h : mapLookup rm.hedge_states s <;> simp [h]

theorem gs_snd_pending (rm : RiskManager) (s : String) :
    ((_get_hedge_state rm s).2).pending_hedges = rm.pending_hedges := by
  unfold _get_hedge_state
  cases h : mapLookup rm.hedge_states s <;> simp [h]

theorem spread_healthy_snd_hs (rm : RiskManager) (n cs : ℚ) :
    ((is_spread_healthy rm n cs).2).hedge_states = rm.hedge_states ∧
    ((is_spread_healthy rm n cs).2).pending_hedges = rm.pending_hedges := by
  by_cases h1 : rm.spread_history = []
  · simp [is_spread_healthy, h1]
  · by_cases h3 : rm.spread_history.sum / (rm.spread_history.length : ℚ) *
        max_spread_multiplier < cs <;>
      by_cases h2 : 1 < n - rm.last_spread_update <;>
        simp [is_spread_healthy, h1, h2, h3]

theorem spreadGate_snd_hs (rm : RiskManager) (n cs : ℚ) :
    ((spreadGate rm n cs).2).hedge_states = rm.hedge_states ∧
    ((spreadGate rm n cs).2).pending_hedges = rm.pending_hedges := by
  unfold spreadGate
  split_ifs with h
  · exact spread_healthy_snd_hs rm n cs
  · exact ⟨rfl, rfl⟩

theorem validate_preserve (c : AdaptiveRiskConsts) (rm0 : RiskManager) (now : ℚ)
    (gp : Option (List Pos)) (stime : ℚ) (symbol : String) (positions : List Pos)
    (tick : VTick) (atr : Option ℚ) (mho : Option Nat) :
    rmActive (validate_hedge_conditions c rm0 now gp stime symbol positions tick
      atr mho).2 symbol = rmActive rm0 symbol ∧
    rmLast (validate_hedge_conditions c rm0 now gp stime symbol positions tick
      atr mho).2 symbol = rmLast rm0 symbol ∧
    (validate_hedge_conditions c rm0 now gp stime symbol positions tick
      atr mho).2.pending_hedges = rm0.pending_hedges := by
  have hA : rmActive (spreadGate (_get_hedge_state rm0 symbol).2 now tick.spread).2 symbol =
      rmActive rm0 symbol := by
    rw [rmActive_eq_of_hs (spreadGate_snd_hs _ _ _).1]
    exact gs_snd_active rm0 symbol
  have hL : rmLast (spreadGate (_get_hedge_state rm0 symbol).2 now tick.spread).2 symbol =
      rmLast rm0 symbol := by
    rw [rmLast_eq_of_hs (spreadGate_snd_hs _ _ _).1]
    exact gs_snd_last rm0 symbol
  have hP : ((spreadGate (_get_hedge_state rm0 symbol).2 now tick.spread).2).pending_hedges =
      rm0.pending_hedges := by
    rw [(spreadGate_snd_hs _ _ _).2]
    exact gs_snd_pending rm0 symbol
  unfold validate_hedge_conditions
  split_ifs
  · exact ⟨rfl, rfl, rfl⟩
  · exact ⟨hA, hL, hP⟩

theorem freshnessStep_fst_hs (env : ZREnv) (tick : VTick) (st : ZRState) :
    ((freshnessStep env tick st).1).rm.hedge_states = st.rm.hedge_states ∧
    ((freshnessStep env tick st).1).rm.pending_hedges = st.rm.pending_hedges ∧
    ((freshnessStep env tick st).1).meta = st.meta := by
  unfold freshnessStep
  by_cases he : env.enable_freshness
  · by_cases hrc : (st.rm.time_offset = none ∨ 3600 < env.now - st.rm.last_offset_calc) ∧
        0 < tick.time
    · simp [he, hrc]
    · simp [he, hrc]
  · simp [he]

theorem popPending_accessors (st : ZRState) (s : String) :
    hedgeLevelOf (popPending st s) = hedgeLevelOf st ∧
    activeHedgesOf (popPending st s) s = activeHedgesOf st s ∧
    lastHedgeTimeOf (popPending st s) s = lastHedgeTimeOf st s ∧
    pendingOf (popPending st s) s = none :=
  ⟨rfl, rfl, rfl, mapLookup_mapErase_self _ _⟩

/-- Every non-success exit of `zr_core` returns the smoothing-updated
state with the pending marker popped. -/
theorem zr_core_snd (env : ZREnv) (symbol : String) (positions : List Pos) (tick : VTick)
    (point vr : ℚ) (rsi : Option ℚ) (bucket : String) (fp lp : Pos) (lvl : Int)
    (usp : Bool) (stp : ℚ) (state0 : HedgeState) (st0 : ZRState) (zw : ℚ)
    (hs : orderSuccess env = false) :
    (zr_core env symbol positions tick point vr rsi bucket fp lp lvl usp stp
        state0 st0 zw).2 =
      popPending
        { st0 with rm := { st0.rm with
            hedge_states := mapInsert st0.rm.hedge_states symbol
              (smoothState env vr state0) } } symbol := by
  simp only [zr_core]
  cases hd : zr_core_decide env positions tick point rsi fp lp lvl usp stp
      (smoothState env vr state0).volatility_scale zw with
  | reject => rfl
  | satisfied => rfl
  | submit na tp lot =>
    rcases heq : env.order_outcome with u | o
    · rfl
    · rcases o with _ | t
      · rfl
      · by_cases ht : t = 0
        · simp [ht]
        · exact absurd hs (by simp [orderSuccess, heq, ht])

/-- Accessor preservation through `zr_try` on a non-success
environment: the hedge-level counter, the active-hedge counter and the
last-hedge timestamp are unchanged, and the pending marker is popped. -/
theorem zr_try_preserve (env : ZREnv) (symbol : String) (positions : List Pos)
    (tick : VTick) (point : ℚ) (atr : Option ℚ) (vr : ℚ) (rsi : Option ℚ)
    (pm : Option PressureMetrics) (bucket : String) (fp : Pos)
    (state0 : HedgeState) (st : ZRState)
    (hs : orderSuccess env = false)
    (hlinkA : state0.active_hedges = activeHedgesOf st symbol)
    (hlinkL : state0.last_hedge_time = lastHedgeTimeOf st symbol) :
    hedgeLevelOf (zr_try env symbol positions tick point atr vr rsi pm bucket fp
      state0 st).2 = hedgeLevelOf st ∧
    activeHedgesOf (zr_try env symbol positions tick point atr vr rsi pm bucket fp
      state0 st).2 symbol = activeHedgesOf st symbol ∧
    lastHedgeTimeOf (zr_try env symbol positions tick point atr vr rsi pm bucket fp
      state0 st).2 symbol = lastHedgeTimeOf st symbol ∧
    pendingOf (zr_try env symbol positions tick point atr vr rsi pm bucket fp
      state0 st).2 symbol = none := by
  have hcore :
      hedgeLevelOf (popPending
        { st with rm := { st.rm with
            hedge_states := mapInsert st.rm.hedge_states symbol
              (smoothState env vr state0) } } symbol) = hedgeLevelOf st ∧
      activeHedgesOf (popPending
        { st with rm := { st.rm with
            hedge_states := mapInsert st.rm.hedge_states symbol
              (smoothState env vr state0) } } symbol) symbol = activeHedgesOf st symbol ∧
      lastHedgeTimeOf (popPending
        { st with rm := { st.rm with
            hedge_states := mapInsert st.rm.hedge_states symbol
              (smoothState env vr state0) } } symbol) symbol = lastHedgeTimeOf st symbol ∧
      pendingOf (popPending
        { st with rm := { st.rm with
            hedge_states := mapInsert st.rm.hedge_states symbol
              (smoothState env vr state0) } } symbol) symbol = none := by
    refine ⟨rfl, ?_, ?_, mapLookup_mapErase_self _ _⟩
    · rw [← hlinkA, ← smoothState_active env vr state0]
      simp [activeHedgesOf, popPending, mapLookup_mapInsert_self]
    · rw [← hlinkL, ← smoothState_last env vr state0]
      simp [lastHedgeTimeOf, popPending, mapLookup_mapInsert_self]
  simp only [zr_try]
  repeat' split
  all_goals
    first
      | exact popPending_accessors st symbol
      | (rw [zr_core_snd env symbol positions tick point vr rsi bucket fp _ _ _ _
            state0 st _ hs]
         exact hcore)

/-- Accessor congruence for states agreeing on the hedge-state dict and
the metadata. -/
theorem zr_accessors_congr {st' st0 : ZRState} (symbol : String)
    (hh : st'.rm.hedge_states = st0.rm.hedge_states) (hm : st'.meta = st0.meta) :
    hedgeLevelOf st' = hedgeLevelOf st0 ∧
    activeHedgesOf st' symbol = activeHedgesOf st0 symbol ∧
    lastHedgeTimeOf st' symbol = lastHedgeTimeOf st0 symbol := by
  unfold hedgeLevelOf activeHedgesOf lastHedgeTimeOf
  rw [hh, hm]
  exact ⟨rfl, rfl, rfl⟩

/-- Accessor congruence through lazy-default lookups. -/
theorem zr_accessors_congr2 {st' st0 : ZRState} (symbol : String)
    (hA : rmActive st'.rm symbol = rmActive st0.rm symbol)
    (hL : rmLast st'.rm symbol = rmLast st0.rm symbol)
    (hm : st'.meta = st0.meta) :
    hedgeLevelOf st' = hedgeLevelOf st0 ∧
    activeHedgesOf st' symbol = activeHedgesOf st0 symbol ∧
    lastHedgeTimeOf st' symbol = lastHedgeTimeOf st0 symbol := by
  refine ⟨?_, hA, hL⟩
  unfold hedgeLevelOf
  rw [hm]

/-- Accessor preservation through `execute_zone_recovery` on a
non-success environment (claim C1's zone-recovery half): whatever path
the call takes — including the raising path — the bucket's hedge-level
counter, the symbol's active-hedge counter and last-hedge timestamp are
unchanged. -/
theorem exec_preserve (env : ZREnv) (symbol : String) (positions : List Pos)
    (tick : VTick) (point : ℚ) (strict : Bool) (atr : Option ℚ) (vr : ℚ)
    (rsi : Option ℚ) (pm : Option PressureMetrics) (mho : Option Nat) (st0 : ZRState)
    (hs : orderSuccess env = false) :
    hedgeLevelOf (zrState (execute_zone_recovery env symbol positions tick point strict
      atr vr rsi pm mho st0)) = hedgeLevelOf st0 ∧
    activeHedgesOf (zrState (execute_zone_recovery env symbol positions tick point strict
      atr vr rsi pm mho st0)) symbol = activeHedgesOf st0 symbol ∧
    lastHedgeTimeOf (zrState (execute_zone_recovery env symbol positions tick point strict
      atr vr rsi pm mho st0)) symbol = lastHedgeTimeOf st0 symbol := by
  simp only [execute_zone_recovery]
  repeat' split
  all_goals simp only [zrState]
  all_goals
    first
      | exact ⟨trivial, trivial, trivial⟩
      | exact ⟨rfl, rfl, rfl⟩
      | exact zr_accessors_congr symbol rfl rfl
      | exact zr_accessors_congr symbol (freshnessStep_fst_hs env tick _).1
          (freshnessStep_fst_hs env tick _).2.2
      | exact ⟨(by simp only [hedgeLevelOf, popPending]
                   rw [(freshnessStep_fst_hs env tick _).2.2]),
              (validate_preserve env.consts _ env.now env.get_positions env.server_time
                  symbol positions tick atr mho).1.trans
                (rmActive_eq_of_hs (freshnessStep_fst_hs env tick _).1 symbol),
              (validate_preserve env.consts _ env.now env.get_positions env.server_time
                  symbol positions tick atr mho).2.1.trans
                (rmLast_eq_of_hs (freshnessStep_fst_hs env tick _).1 symbol)⟩
      | exact ⟨(zr_try_preserve env symbol positions tick point atr vr rsi pm _ _ _ _ hs
                  (by rw [gs_fst]; exact (gs_snd_active _ symbol).symm)
                  (by rw [gs_fst]; exact (gs_snd_last _ symbol).symm)).1.trans
                (by simp only [hedgeLevelOf]; rw [(freshnessStep_fst_hs env tick _).2.2]),
              (zr_try_preserve env symbol positions tick point atr vr rsi pm _ _ _ _ hs
                  (by rw [gs_fst]; exact (gs_snd_active _ symbol).symm)
                  (by rw [gs_fst]; exact (gs_snd_last _ symbol).symm)).2.1.trans
                ((gs_snd_active _ symbol).trans
                  ((validate_preserve env.consts _ env.now env.get_positions
                      env.server_time symbol positions tick atr mho).1.trans
                    (rmActive_eq_of_hs (freshnessStep_fst_hs env tick _).1 symbol))),
              (zr_try_preserve env symbol positions tick point atr vr rsi pm _ _ _ _ hs
                  (by rw [gs_fst]; exact (gs_snd_active _ symbol).symm)
                  (by rw [gs_fst]; exact (gs_snd_last _ symbol).symm)).2.2.1.trans
                ((gs_snd_last _ symbol).trans
                  ((validate_preserve env.consts _ env.now env.get_positions
                      env.server_time symbol positions tick atr mho).2.1.trans
                    (rmLast_eq_of_hs (freshnessStep_fst_hs env tick _).1 symbol)))⟩

/-- On a non-success environment, every normally-returning call of
`execute_zone_recovery` that gets past the 10-second debounce guard
leaves the symbol's pending marker cleared. -/
theorem exec_pending (env : ZREnv) (symbol : String) (positions : List Pos)
    (tick : VTick) (point : ℚ) (strict : Bool) (atr : Option ℚ) (vr : ℚ)
    (rsi : Option ℚ) (pm : Option PressureMetrics) (mho : Option Nat) (st0 : ZRState)
    (hdb : ¬ env.now - (pendingOf st0 symbol).getD 0 < 10)
    (hs : orderSuccess env = false) :
    ∀ (b : Bool) (st' : ZRState),
      execute_zone_recovery env symbol positions tick point strict atr vr rsi pm mho st0 =
        .ok (b, st') →
      pendingOf st' symbol = none := by
  intro b st' heq
  simp only [execute_zone_recovery] at heq
  repeat' split at heq
  all_goals
    first
      | exact absurd (by assumption) hdb
      | (cases heq
         exact mapLookup_mapErase_self _ _)
      | cases heq
      | (injection heq with h
         have h2 := congrArg Prod.snd h
         dsimp only at h2
         rw [← h2]
         exact (zr_try_preserve env symbol positions tick point atr vr rsi pm _ _ _ _ hs
            (by rw [gs_fst]; exact (gs_snd_active _ symbol).symm)
            (by rw [gs_fst]; exact (gs_snd_last _ symbol).symm)).2.2.2)

/-- C5 (amended): in pivot clustering the threshold is
`first_sorted_level * 0.0005`, computed once from the smallest level of
the whole sorted list and never recomputed; a level merges into the
current cluster exactly when it lies within that fixed threshold of the
previous level (equivalently, the clusters are the maximal runs of the
sorted levels whose consecutive gaps are at most the threshold), and
each closed cluster becomes a wall with price the mean of its levels
and strength its level count. -/
theorem claim_C5_amended_fixed_threshold :
    ∀ (levels : List ℚ) (is_resistance : Bool),
      _cluster_levels levels is_resistance =
        (gapClusters (((sortAsc levels).headD 0) * (5/10000)) (sortAsc levels)).map
          (fun c => _process_cluster c is_resistance) := by
  intro levels is_resistance
  simp only [_cluster_levels]
  cases hs : sortAsc levels with
  | nil => simp [gapClusters]
  | cons l0 ls =>
    simp only [gapClusters, List.headD]
    rw [clusterLoop_eq_gapSplitRel]
    simp

/-! ### Claim C1 -/

/-- C1: the bucket's hedge-level counter (and the symbol's
active-hedge/last-hedge-time counters) are mutated by the zone-recovery
execution path only when the order submission returns a confirmed
ticket, and the Ledger's pool balance / lifetime-repaid counters are
mutated by a debt-reduction pass only when a partial close is confirmed
by the broker; on any failure, rejection or exception those fields are
left unchanged. -/
theorem claim_C1_mutations_only_on_confirmed_success :
    (∀ (env : ZREnv) (symbol : String) (positions : List Pos) (tick : VTick)
        (point : ℚ) (strict : Bool) (atr : Option ℚ) (vr : ℚ) (rsi : Option ℚ)
        (pm : Option PressureMetrics) (mho : Option Nat) (st0 : ZRState),
      orderSuccess env = false →
      hedgeLevelOf (zrState (execute_zone_recovery env symbol positions tick point
        strict atr vr rsi pm mho st0)) = hedgeLevelOf st0 ∧
      activeHedgesOf (zrState (execute_zone_recovery env symbol positions tick point
        strict atr vr rsi pm mho st0)) symbol = activeHedgesOf st0 symbol ∧
      lastHedgeTimeOf (zrState (execute_zone_recovery env symbol positions tick point
        strict atr vr rsi pm mho st0)) symbol = lastHedgeTimeOf st0 symbol) ∧
    (∀ (broker : Broker) (b : BadBank),
      (∀ t v, broker.close_position t v = false) →
      (attempt_debt_reduction broker b).2.1.tithe_balance = b.tithe_balance ∧
      (attempt_debt_reduction broker b).2.1.total_debt_repaid = b.total_debt_repaid) := by
  constructor
  · intro env symbol positions tick point strict atr vr rsi pm mho st0 hs
    exact exec_preserve env symbol positions tick point strict atr vr rsi pm mho st0 hs
  · intro broker b hf
    exact reduce_ledger_unchanged_of_all_fail broker hf b

/-- Witness for C1 at a failing order environment and an all-failing
broker. -/
theorem claim_C1_witness :
    (hedgeLevelOf (zrState (execute_zone_recovery envF "EURUSD" [] tickW (1/10000)
        false none 1 none none none stW)) = hedgeLevelOf stW ∧
      activeHedgesOf (zrState (execute_zone_recovery envF "EURUSD" [] tickW (1/10000)
        false none 1 none none none stW)) "EURUSD" = activeHedgesOf stW "EURUSD" ∧
      lastHedgeTimeOf (zrState (execute_zone_recovery envF "EURUSD" [] tickW (1/10000)
        false none 1 none none none stW)) "EURUSD" = lastHedgeTimeOf stW "EURUSD") ∧
    ((attempt_debt_reduction brokerFail bankW).2.1.tithe_balance = bankW.tithe_balance ∧
      (attempt_debt_reduction brokerFail bankW).2.1.total_debt_repaid =
        bankW.total_debt_repaid) :=
  ⟨claim_C1_mutations_only_on_confirmed_success.1 envF "EURUSD" [] tickW (1/10000)
      false none 1 none none none stW rfl,
   claim_C1_mutations_only_on_confirmed_success.2 brokerFail bankW (fun _ _ => rfl)⟩

/-! ### Claim C3 -/

/-- C3 counterexample: a call that passes every gate and gets its order
confirmed (ticket 42) returns `True` with the pending marker still set
(`some 100`, the timestamp written at entry) — the claim that the
marker set at entry is removed before returning on a successful order
submission is false on the code. -/
theorem claim_C3_counterexample :
    zrResult (execute_zone_recovery envC3 "EURUSD" [posC3] tickC3 (1/10000) false
      (some (1/1000)) 1 (some 50) none none stC3) = true ∧
    pendingOf (zrState (execute_zone_recovery envC3 "EURUSD" [posC3] tickC3 (1/10000)
      false (some (1/1000)) 1 (some 50) none none stC3)) "EURUSD" = some 100 := by
  have hX : hasSub "EURUSD" "XAU" = false := by decide
  have hG : hasSub "EURUSD" "GOLD" = false := by decide
  have hJ : hasSub "EURUSD" "JPY" = false := by decide
  have habs : |(3:ℚ)/1000| = 3/1000 := abs_of_pos (by norm_num)
  have hopt : (some ((1:ℚ)/1000) = none) = False := by simp
  have hs1 : ("SELL" = "BUY") = False := by simp
  have hs2 : ("SELL" = "SELL") = True := by simp
  constructor <;>
    norm_num [execute_zone_recovery, freshnessStep, popPending, validate_hedge_conditions,
      validateVerdict, spreadGate, is_spread_healthy, _get_hedge_state, mapLookup,
      mapInsert, mapErase, sortByTime, insertByTime, zr_try, calculate_zone_parameters,
      _calculate_adaptive_factors, pyFloatTruthy, isMetal, zr_core, zr_core_decide,
      smoothState, zoneBoundaries, zoneTrigger, orderSuccess, zrResult, zrState,
      pendingOf, global_position_cap, max_spread_multiplier, HedgeState.default,
      envC3, constsW, posC3, tickC3, stC3, hX, hG, hJ, habs, hopt, hs1, hs2,
      List.getLastD]

/-- C3 (amended): the per-symbol pending marker is cleared on every
exit path of the zone-recovery evaluation that returns normally and got
past the 10-second debounce guard, EXCEPT the confirmed-success path —
after an order submission returns a confirmed ticket the marker set at
entry is deliberately left in place (and on the debounce fast-exit, as
well as on the uncaught raise of an empty position group, the marker is
not touched). -/
theorem claim_C3_amended_pending_cleared :
    ∀ (env : ZREnv) (symbol : String) (positions : List Pos) (tick : VTick)
      (point : ℚ) (strict : Bool) (atr : Option ℚ) (vr : ℚ) (rsi : Option ℚ)
      (pm : Option PressureMetrics) (mho : Option Nat) (st0 : ZRState),
      ¬ env.now - (pendingOf st0 symbol).getD 0 < 10 →
      orderSuccess env = false →
      zrOk (execute_zone_recovery env symbol positions tick point strict atr vr rsi pm
        mho st0) = true →
      pendingOf (zrState (execute_zone_recovery env symbol positions tick point strict
        atr vr rsi pm mho st0)) symbol = none := by
  intro env symbol positions tick point strict atr vr rsi pm mho st0 hdb hs hok
  cases h : execute_zone_recovery env symbol positions tick point strict atr vr rsi pm
      mho st0 with
  | error s => rw [h] at hok; exact absurd hok (by simp [zrOk])
  | ok br =>
    exact exec_pending env symbol positions tick point strict atr vr rsi pm mho st0
      hdb hs br.1 br.2 (by rw [h])

/-- Witness for C3 (amended) at a trade-forbidden environment: the call
returns normally without a confirmed order and the marker ends
cleared. -/
theorem claim_C3_amended_witness :
    pendingOf (zrState (execute_zone_recovery envF "EURUSD" [] tickW (1/10000) false
      none 1 none none none stW)) "EURUSD" = none := by
  refine claim_C3_amended_pending_cleared envF "EURUSD" [] tickW (1/10000) false
    none 1 none none none stW ?_ rfl ?_
  · norm_num [pendingOf, stW, mapLookup, envF]
  · norm_num [execute_zone_recovery, freshnessStep, popPending, mapLookup, mapInsert,
      mapErase, zrOk, envF, stW, tickW, sortByTime, pendingOf]

end Superbot
